import Mathlib

/-!
Shallow embedding of `src/main.ts` of the ui-ruler repository.

The source file contains two near-duplicate copies of the `Ruler` class
(the specification calls them "otherwise-identical copies" of the same
logic).  The first copy, with a hardcoded 60 pixels-per-inch scale table
and a special-cased tick loop for the unit `"in"`, is embedded in
namespace `Impl1`; the second copy, with the live pixels-per-millimeter
probe and a single `findIndex`-driven tick loop, is embedded in
namespace `Impl2`.

JavaScript numbers are modelled as exact rationals.  The DOM inputs the
code reads (container extent, the `offsetWidth` of the transient 1mm
probe element, pointer coordinates) are passed in as explicit
parameters.  Canvas-2D calls are recorded as a list of `Cmd` values.
The unbounded `for` loops of `drawTicks` are modelled with explicit
fuel, returning `none` when the fuel runs out before the loop guard
fails; a loop that runs forever is one that returns `none` for every
fuel.
-/

inductive RulerOrientation where
| horizontal
| vertical
deriving DecidableEq, Repr

/-- One recorded canvas-2D drawing command (or style assignment). -/
inductive Cmd where
| beginPath
| moveTo (x y : ℚ)
| lineTo (x y : ℚ)
| fillText (s : String) (x y : ℚ)
| stroke
| clearRect (x y w h : ℚ)
| setStrokeStyle (s : String)
| setFillStyle (s : String)
deriving DecidableEq, Repr

/-- Truncation toward zero, as used by the JavaScript `%` operator. -/
def ratTrunc (q : ℚ) : ℤ := if 0 ≤ q then ⌊q⌋ else ⌈q⌉

/-- JavaScript `a % b` (remainder with the sign of the dividend) for a
nonzero divisor `b`.  The `b = 0` case gives `NaN` in JavaScript; it is
handled separately in `jsModEqZero`. -/
def jsMod (a b : ℚ) : ℚ := a - b * (ratTrunc (a / b) : ℚ)

/-- The JavaScript test `a % b === 0`: false when `b = 0`, since the
remainder is then `NaN`, which compares unequal to everything. -/
def jsModEqZero (a b : ℚ) : Bool := decide (b ≠ 0) && decide (jsMod a b = 0)

/-- The tick test `i % tick === 0 && tick > 0` appearing in both copies
of `drawTicks`. -/
def tickPred (i tick : ℚ) : Bool := jsModEqZero i tick && decide (0 < tick)

/-- The `tickHeights` array `[15, 10, 5]` of the source. -/
def tickHeights : List ℚ := [15, 10, 5]

/-- JavaScript `String(x)` for a number: exact for integral values (the
digit string of the integer).  A non-integral value would print the
decimal expansion of the underlying binary float, which has no exact
counterpart over ℚ; those values fall back to the numerator/denominator
rendering and are avoided by the label theorems, which restrict to
integral tick positions. -/
def jsNumToString (q : ℚ) : String := if q.den = 1 then toString q.num else toString q

/-- JavaScript `x.toFixed(0)` as an integer: the ES algorithm splits off
the sign and rounds the magnitude half away from zero. -/
def jsToFixed0 (q : ℚ) : ℤ := if q < 0 then -⌊-q + 1 / 2⌋ else ⌊q + 1 / 2⌋

/-- JavaScript `x.toFixed(0)` as a string (for nonnegative arguments;
the `"-0"` corner of JavaScript is not needed by any theorem below). -/
def jsToFixed0Str (q : ℚ) : String := toString (jsToFixed0 q)

/-- The `RulerOptions` record, after the constructor has merged the
caller's options over `defaultOptions`. -/
structure RulerOptions where
  unit : String
  tickMajor : ℚ
  tickMinor : ℚ
  tickMicro : ℚ
  showLabel : Bool
  startX : ℚ
  startY : ℚ
  arrowStyle : String
  showMousePosition : Bool
  position : String
  orientation : RulerOrientation
  rulerThickness : ℚ
deriving DecidableEq, Repr

/-- The `defaultOptions` record of both copies. -/
def defaultOptions : RulerOptions :=
  { unit := "px", tickMajor := 100, tickMinor := 20, tickMicro := 10,
    showLabel := true, startX := 0, startY := 0, arrowStyle := "line",
    showMousePosition := true, position := "outside",
    orientation := RulerOrientation.horizontal, rulerThickness := 30 }

/-- The mutable instance state of a `Ruler`: its options, the surface
size, the unit-to-pixel scale factor `unitDiv`, and the tracked pointer
coordinates. -/
structure RulerState where
  options : RulerOptions
  width : ℚ
  height : ℚ
  unitDiv : ℚ
  mouseX : ℚ
  mouseY : ℚ
deriving DecidableEq, Repr

/-- Fuel-indexed model of `for (let i = start; i < length; i += step) body(i)`,
collecting the commands every iteration emits.  `none` means the fuel
ran out while the loop guard was still true. -/
def jsFor (body : ℚ → List Cmd) (length step : ℚ) : ℚ → Nat → Option (List Cmd)
| i, 0 => if i < length then none else some []
| i, fuel + 1 =>
    if i < length then
      (jsFor body length step (i + step) fuel).map (fun rest => body i ++ rest)
    else some []

/-- Number of iterations the loop performs when the step is positive. -/
def numIters (start length step : ℚ) : Nat :=
  if 0 < step then (⌈(length - start) / step⌉).toNat else 0

/-- The positions visited by a positive-step loop, in order. -/
def iterPositions (start length step : ℚ) : List ℚ :=
  (List.range (numIters start length step)).map (fun k : Nat => start + (k : ℚ) * step)

namespace Impl2

/-- The probe `calcPixelsPerMM` of the second copy: it appends a 1mm-wide
element to the document body, reads its rendered `offsetWidth`, and
removes the element again.  The measured width is the environment input
`p`. -/
def calcPixelsPerMM (p : ℚ) : ℚ := p

/-- `getPixelsPerUnit` of the second copy (live probe). -/
def getPixelsPerUnit (unit : String) (p : ℚ) : ℚ :=
  if unit = "px" then 1
  else if unit = "mm" then calcPixelsPerMM p
  else if unit = "cm" then calcPixelsPerMM p * 10
  else if unit = "in" then calcPixelsPerMM p * 25.4
  else 1

/-- Commands emitted by one iteration of the second copy's `drawTicks`
loop: `findIndex` over `[major, minor, micro]` with the tick test,
then a tick line of the matching height, plus a label when the tick is
major and labels are on. -/
def tickCmds (orientation : RulerOrientation) (major minor micro : ℚ)
    (showLabel : Bool) (i : ℚ) : List Cmd :=
  match [major, minor, micro].findIdx? (fun tick => tickPred i tick) with
  | none => []
  | some idx =>
    let tickHeight := tickHeights.getD idx 0
    match orientation with
    | RulerOrientation.horizontal =>
        [Cmd.moveTo i 0, Cmd.lineTo i tickHeight] ++
          (if showLabel ∧ idx = 0 then
            [Cmd.fillText (jsNumToString i) (i + 2) (tickHeight + 10)] else [])
    | RulerOrientation.vertical =>
        [Cmd.moveTo 0 i, Cmd.lineTo tickHeight i] ++
          (if showLabel ∧ idx = 0 then
            [Cmd.fillText (jsNumToString i) (tickHeight + 2) (i + 10)] else [])

/-- `drawTicks` of the second copy: one loop from `start` to `length`
stepping by `unitDiv`, wrapped in `beginPath` / `stroke`. -/
def drawTicks (orientation : RulerOrientation) (length major minor micro start : ℚ)
    (showLabel : Bool) (unitDiv : ℚ) (fuel : Nat) : Option (List Cmd) :=
  (jsFor (tickCmds orientation major minor micro showLabel) length unitDiv start fuel).map
    (fun body => Cmd.beginPath :: body ++ [Cmd.stroke])

/-- `drawMousePosition` of the second copy: early return when either
tracked coordinate is strictly negative; otherwise a semi-transparent
full-span guide line and a text label. -/
def drawMousePosition (s : RulerState) : List Cmd :=
  if s.mouseX < 0 ∨ s.mouseY < 0 then []
  else
    match s.options.orientation with
    | RulerOrientation.horizontal =>
        [Cmd.beginPath, Cmd.setStrokeStyle "rgba(0, 0, 0, 0.3)",
         Cmd.moveTo s.mouseX 0, Cmd.lineTo s.mouseX s.height, Cmd.stroke,
         Cmd.setFillStyle "black",
         Cmd.fillText ("X: " ++ jsToFixed0Str (s.mouseX / s.unitDiv) ++ s.options.unit)
           (s.mouseX + 5) 15]
    | RulerOrientation.vertical =>
        [Cmd.beginPath, Cmd.setStrokeStyle "rgba(0, 0, 0, 0.3)",
         Cmd.moveTo 0 s.mouseY, Cmd.lineTo s.width s.mouseY, Cmd.stroke,
         Cmd.setFillStyle "black",
         Cmd.fillText ("Y: " ++ jsToFixed0Str (s.mouseY / s.unitDiv) ++ s.options.unit)
           5 (s.mouseY + 10)]

/-- `renderRuler` of the second copy: clear the surface, draw the ticks
for the current orientation, then the cursor indicator when enabled. -/
def renderRuler (s : RulerState) (fuel : Nat) : Option (List Cmd) :=
  (match s.options.orientation with
   | RulerOrientation.horizontal =>
       drawTicks RulerOrientation.horizontal s.width s.options.tickMajor
         s.options.tickMinor s.options.tickMicro s.options.startX
         s.options.showLabel s.unitDiv fuel
   | RulerOrientation.vertical =>
       drawTicks RulerOrientation.vertical s.height s.options.tickMajor
         s.options.tickMinor s.options.tickMicro s.options.startY
         s.options.showLabel s.unitDiv fuel).map
    (fun ticks =>
      Cmd.clearRect 0 0 s.width s.height :: ticks ++
        (if s.options.showMousePosition then drawMousePosition s else []))

/-- State built by the constructor (options already merged with the
defaults), given the container's client width/height and the probe
measurement `p`. -/
def constructState (opts : RulerOptions) (containerW containerH p : ℚ) : RulerState :=
  let size :=
    match opts.orientation with
    | RulerOrientation.horizontal => (containerW, opts.rulerThickness)
    | RulerOrientation.vertical => (opts.rulerThickness, containerH)
  { options := opts, width := size.1, height := size.2,
    unitDiv := getPixelsPerUnit opts.unit p, mouseX := 0, mouseY := 0 }

/-- Constructor: build the initial state and perform the first render. -/
def construct (opts : RulerOptions) (containerW containerH p : ℚ) (fuel : Nat) :
    RulerState × Option (List Cmd) :=
  (constructState opts containerW containerH p,
   renderRuler (constructState opts containerW containerH p) fuel)

/-- State update of `handleMouseMove`: pointer position minus the
container's bounding-rectangle origin. -/
def handleMouseMoveState (s : RulerState) (clientX clientY rectLeft rectTop : ℚ) :
    RulerState :=
  { s with mouseX := clientX - rectLeft, mouseY := clientY - rectTop }

/-- `handleMouseMove`: update the tracked coordinates, re-render when
`showMousePosition` is on (otherwise nothing is drawn). -/
def handleMouseMove (s : RulerState) (clientX clientY rectLeft rectTop : ℚ)
    (fuel : Nat) : RulerState × Option (List Cmd) :=
  let s1 := handleMouseMoveState s clientX clientY rectLeft rectTop
  (s1, if s1.options.showMousePosition then renderRuler s1 fuel else some [])

/-- State update of `handleMouseLeave`: both coordinates get the
sentinel `-1`. -/
def handleMouseLeaveState (s : RulerState) : RulerState :=
  { s with mouseX := -1, mouseY := -1 }

/-- `handleMouseLeave`: reset the coordinates and re-render. -/
def handleMouseLeave (s : RulerState) (fuel : Nat) :
    RulerState × Option (List Cmd) :=
  (handleMouseLeaveState s, renderRuler (handleMouseLeaveState s) fuel)

/-- State update of `refresh`: re-measure the container extent along the
orientation axis (`containerExtent = none` models a missing
`parentElement`; an extent of `0` is falsy, so both fall back to the
previous extent via `||`), re-apply the thickness on the cross axis, and
recompute `unitDiv`. -/
def refreshState (s : RulerState) (containerExtent : Option ℚ) (p : ℚ) : RulerState :=
  match s.options.orientation with
  | RulerOrientation.horizontal =>
      { s with
        width := (match containerExtent with
          | some c => if c = 0 then s.width else c
          | none => s.width),
        height := s.options.rulerThickness,
        unitDiv := getPixelsPerUnit s.options.unit p }
  | RulerOrientation.vertical =>
      { s with
        height := (match containerExtent with
          | some c => if c = 0 then s.height else c
          | none => s.height),
        width := s.options.rulerThickness,
        unitDiv := getPixelsPerUnit s.options.unit p }

/-- `refresh`: update the state, then re-render. -/
def refresh (s : RulerState) (containerExtent : Option ℚ) (p : ℚ) (fuel : Nat) :
    RulerState × Option (List Cmd) :=
  (refreshState s containerExtent p,
   renderRuler (refreshState s containerExtent p) fuel)

end Impl2

namespace Impl1

/-- The probe helper is present in the first copy too, but nothing in
that copy calls it. -/
def calcPixelsPerMM (p : ℚ) : ℚ := p

/-- `getPixelsPerUnit` of the first copy: hardcoded values derived from
60 pixels per inch; the probe measurement is ignored. -/
def getPixelsPerUnit (unit : String) : ℚ :=
  if unit = "px" then 1
  else if unit = "mm" then 60 / 25.4
  else if unit = "cm" then (60 / 25.4) * 10
  else if unit = "in" then 60
  else 1

/-- Loop body of the first copy's non-`"in"` branch: an if/else chain
over major, minor, micro (the source's second `else if` for labels is
dead code repeating the first). -/
def tickCmds (orientation : RulerOrientation) (major minor micro : ℚ)
    (showLabel : Bool) (i : ℚ) : List Cmd :=
  if tickPred i major = true then
    match orientation with
    | RulerOrientation.horizontal =>
        [Cmd.moveTo i 0, Cmd.lineTo i 15] ++
          (if showLabel then [Cmd.fillText (jsNumToString i) (i + 2) 25] else [])
    | RulerOrientation.vertical =>
        [Cmd.moveTo 0 i, Cmd.lineTo 15 i] ++
          (if showLabel then [Cmd.fillText (jsNumToString i) 17 (i + 10)] else [])
  else if tickPred i minor = true then
    match orientation with
    | RulerOrientation.horizontal => [Cmd.moveTo i 0, Cmd.lineTo i 10]
    | RulerOrientation.vertical => [Cmd.moveTo 0 i, Cmd.lineTo 10 i]
  else if tickPred i micro = true then
    match orientation with
    | RulerOrientation.horizontal => [Cmd.moveTo i 0, Cmd.lineTo i 5]
    | RulerOrientation.vertical => [Cmd.moveTo 0 i, Cmd.lineTo 5 i]
  else []

/-- Major-loop body of the first copy's `"in"` branch: a tick (height 15
horizontally, but `tickHeights[1] = 10` vertically, as in the source)
and an inch label `(i / 60).toFixed(0) + '"'`, drawn regardless of
`showLabel`. -/
def inMajorBody (orientation : RulerOrientation) (i : ℚ) : List Cmd :=
  match orientation with
  | RulerOrientation.horizontal =>
      [Cmd.moveTo i 0, Cmd.lineTo i 15,
       Cmd.fillText (jsToFixed0Str (i / 60) ++ "\"") (i + 2) 25]
  | RulerOrientation.vertical =>
      [Cmd.moveTo 0 i, Cmd.lineTo 10 i,
       Cmd.fillText (jsToFixed0Str (i / 60) ++ "\"") 17 (i + 10)]

/-- Minor-loop body of the `"in"` branch: skip exact multiples of the
major interval (without any positivity guard), else a height-10 tick. -/
def inMinorBody (orientation : RulerOrientation) (major : ℚ) (i : ℚ) : List Cmd :=
  if jsModEqZero i major = true then []
  else
    match orientation with
    | RulerOrientation.horizontal => [Cmd.moveTo i 0, Cmd.lineTo i 10]
    | RulerOrientation.vertical => [Cmd.moveTo 0 i, Cmd.lineTo 10 i]

/-- Micro-loop body of the `"in"` branch: skip exact multiples of major
or minor, else a height-5 tick. -/
def inMicroBody (orientation : RulerOrientation) (major minor : ℚ) (i : ℚ) : List Cmd :=
  if jsModEqZero i major = true then []
  else if jsModEqZero i minor = true then []
  else
    match orientation with
    | RulerOrientation.horizontal => [Cmd.moveTo i 0, Cmd.lineTo i 5]
    | RulerOrientation.vertical => [Cmd.moveTo 0 i, Cmd.lineTo 5 i]

/-- `drawTicks` of the first copy.  For the unit `"in"` it runs three
separate loops stepping by `major`, `minor` and `micro` respectively;
for every other unit it runs the single `unitDiv`-stepped loop. -/
def drawTicks (unit : String) (orientation : RulerOrientation)
    (length major minor micro start : ℚ) (showLabel : Bool) (unitDiv : ℚ)
    (fuel : Nat) : Option (List Cmd) :=
  if unit = "in" then
    match jsFor (inMajorBody orientation) length major start fuel with
    | none => none
    | some l1 =>
      match jsFor (inMinorBody orientation major) length minor start fuel with
      | none => none
      | some l2 =>
        match jsFor (inMicroBody orientation major minor) length micro start fuel with
        | none => none
        | some l3 => some (Cmd.beginPath :: (l1 ++ l2 ++ l3) ++ [Cmd.stroke])
  else
    (jsFor (tickCmds orientation major minor micro showLabel) length unitDiv start fuel).map
      (fun body => Cmd.beginPath :: body ++ [Cmd.stroke])

/-- `drawMousePosition` of the first copy: the early return uses `<= 0`,
so a coordinate of exactly 0 suppresses the indicator. -/
def drawMousePosition (s : RulerState) : List Cmd :=
  if s.mouseX ≤ 0 ∨ s.mouseY ≤ 0 then []
  else
    match s.options.orientation with
    | RulerOrientation.horizontal =>
        [Cmd.beginPath, Cmd.setStrokeStyle "rgba(0, 0, 0, 0.3)",
         Cmd.moveTo s.mouseX 0, Cmd.lineTo s.mouseX s.height, Cmd.stroke,
         Cmd.setFillStyle "black",
         Cmd.fillText ("X: " ++ jsToFixed0Str (s.mouseX / s.unitDiv) ++ s.options.unit)
           (s.mouseX + 5) 15]
    | RulerOrientation.vertical =>
        [Cmd.beginPath, Cmd.setStrokeStyle "rgba(0, 0, 0, 0.3)",
         Cmd.moveTo 0 s.mouseY, Cmd.lineTo s.width s.mouseY, Cmd.stroke,
         Cmd.setFillStyle "black",
         Cmd.fillText ("Y: " ++ jsToFixed0Str (s.mouseY / s.unitDiv) ++ s.options.unit)
           5 (s.mouseY + 10)]

/-- `renderRuler` of the first copy. -/
def renderRuler (s : RulerState) (fuel : Nat) : Option (List Cmd) :=
  (match s.options.orientation with
   | RulerOrientation.horizontal =>
       drawTicks s.options.unit RulerOrientation.horizontal s.width s.options.tickMajor
         s.options.tickMinor s.options.tickMicro s.options.startX
         s.options.showLabel s.unitDiv fuel
   | RulerOrientation.vertical =>
       drawTicks s.options.unit RulerOrientation.vertical s.height s.options.tickMajor
         s.options.tickMinor s.options.tickMicro s.options.startY
         s.options.showLabel s.unitDiv fuel).map
    (fun ticks =>
      Cmd.clearRect 0 0 s.width s.height :: ticks ++
        (if s.options.showMousePosition then drawMousePosition s else []))

/-- State built by the first copy's constructor. -/
def constructState (opts : RulerOptions) (containerW containerH : ℚ) : RulerState :=
  let size :=
    match opts.orientation with
    | RulerOrientation.horizontal => (containerW, opts.rulerThickness)
    | RulerOrientation.vertical => (opts.rulerThickness, containerH)
  { options := opts, width := size.1, height := size.2,
    unitDiv := getPixelsPerUnit opts.unit, mouseX := 0, mouseY := 0 }

/-- State update of the first copy's `handleMouseLeave`. -/
def handleMouseLeaveState (s : RulerState) : RulerState :=
  { s with mouseX := -1, mouseY := -1 }

/-- `handleMouseLeave` of the first copy. -/
def handleMouseLeave (s : RulerState) (fuel : Nat) :
    RulerState × Option (List Cmd) :=
  (handleMouseLeaveState s, renderRuler (handleMouseLeaveState s) fuel)

/-- State update of the first copy's `refresh`. -/
def refreshState (s : RulerState) (containerExtent : Option ℚ) : RulerState :=
  match s.options.orientation with
  | RulerOrientation.horizontal =>
      { s with
        width := (match containerExtent with
          | some c => if c = 0 then s.width else c
          | none => s.width),
        height := s.options.rulerThickness,
        unitDiv := getPixelsPerUnit s.options.unit }
  | RulerOrientation.vertical =>
      { s with
        height := (match containerExtent with
          | some c => if c = 0 then s.height else c
          | none => s.height),
        width := s.options.rulerThickness,
        unitDiv := getPixelsPerUnit s.options.unit }

/-- `refresh` of the first copy. -/
def refresh (s : RulerState) (containerExtent : Option ℚ) (fuel : Nat) :
    RulerState × Option (List Cmd) :=
  (refreshState s containerExtent,
   renderRuler (refreshState s containerExtent) fuel)

end Impl1

/-- Claim side (spec wording): `i` is evenly divisible by `d`, that is,
`i / d` is an integer. -/
def evenlyDivides (d i : ℚ) : Bool := decide ((i / d).den = 1)

/-- A perpendicular tick line of the given length, as the claims
describe it. -/
def claimLine (orientation : RulerOrientation) (h : ℚ) (i : ℚ) : List Cmd :=
  match orientation with
  | RulerOrientation.horizontal => [Cmd.moveTo i 0, Cmd.lineTo i h]
  | RulerOrientation.vertical => [Cmd.moveTo 0 i, Cmd.lineTo h i]

/-- Claim side of C1: the single tick drawn at position `i`, chosen by
priority — major (length 15) if `i` is evenly divisible by the major
interval, else minor (length 10), else micro (length 5), else
nothing. -/
def claimTick (orientation : RulerOrientation) (major minor micro : ℚ) (i : ℚ) :
    List Cmd :=
  if evenlyDivides major i = true then claimLine orientation 15 i
  else if evenlyDivides minor i = true then claimLine orientation 10 i
  else if evenlyDivides micro i = true then claimLine orientation 5 i
  else []

/-- Claim side of C8: the label of a major tick — the integer coordinate
value as plain text, no fractional digits and no unit suffix, offset 2px
past the tick along the ruler axis and just past the tick's far end on
the cross axis. -/
def claimMajorLabel (orientation : RulerOrientation) (i : ℚ) : List Cmd :=
  match orientation with
  | RulerOrientation.horizontal => [Cmd.fillText (toString i.num) (i + 2) 25]
  | RulerOrientation.vertical => [Cmd.fillText (toString i.num) 17 (i + 10)]

/-- Claim side of C6: the cursor position indicator — a semi-transparent
full-span guide line perpendicular to the ruler at the tracked
coordinate, and a text label of the axis name, the coordinate divided by
the scale factor rounded to the nearest integer, and the unit name. -/
def claimCursorIndicator (s : RulerState) : List Cmd :=
  match s.options.orientation with
  | RulerOrientation.horizontal =>
      [Cmd.beginPath, Cmd.setStrokeStyle "rgba(0, 0, 0, 0.3)",
       Cmd.moveTo s.mouseX 0, Cmd.lineTo s.mouseX s.height, Cmd.stroke,
       Cmd.setFillStyle "black",
       Cmd.fillText ("X: " ++ jsToFixed0Str (s.mouseX / s.unitDiv) ++ s.options.unit)
         (s.mouseX + 5) 15]
  | RulerOrientation.vertical =>
      [Cmd.beginPath, Cmd.setStrokeStyle "rgba(0, 0, 0, 0.3)",
       Cmd.moveTo 0 s.mouseY, Cmd.lineTo s.width s.mouseY, Cmd.stroke,
       Cmd.setFillStyle "black",
       Cmd.fillText ("Y: " ++ jsToFixed0Str (s.mouseY / s.unitDiv) ++ s.options.unit)
         5 (s.mouseY + 10)]

/-- Selector for tick lines (the `moveTo`/`lineTo` pairs). -/
def isPath : Cmd → Bool
| Cmd.moveTo _ _ => true
| Cmd.lineTo _ _ => true
| _ => false

/-- Selector for text labels. -/
def isFillText : Cmd → Bool
| Cmd.fillText _ _ _ => true
| _ => false

/-- Divergence of the first copy's `drawTicks` at a fixed argument list:
no amount of fuel completes the loop. -/
def impl1DrawTicksDiverges (unit : String) (o : RulerOrientation)
    (length major minor micro start : ℚ) (sl : Bool) (ud : ℚ) : Prop :=
  ∀ fuel, Impl1.drawTicks unit o length major minor micro start sl ud fuel = none

/-- Divergence of the second copy's `renderRuler` at a fixed state. -/
def impl2RenderDiverges (s : RulerState) : Prop :=
  ∀ fuel, Impl2.renderRuler s fuel = none

/-- A configuration with every tick interval non-positive (and the
cursor indicator off), for exercising the disabled-category path. -/
def optsC2 : RulerOptions :=
  { defaultOptions with
    tickMajor := 0
    tickMinor := -2
    tickMicro := -3
    showMousePosition := false }

/-- The default configuration with the millimeter unit. -/
def optsMM : RulerOptions :=
  { defaultOptions with unit := "mm" }

/-- A small freshly constructed instance: default (pixel) options,
container 4×30, probe measurement 5. -/
def sPx : RulerState := Impl2.constructState defaultOptions 4 30 5

/-- A horizontal pixel-unit state with the pointer tracked at local
coordinate 237 (and 10 on the cross axis). -/
def s237 : RulerState :=
  { options := { defaultOptions with
      tickMajor := 50
      tickMinor := 10
      tickMicro := 5
      showLabel := false },
    width := 6, height := 30, unitDiv := 1, mouseX := 237, mouseY := 10 }

/-- Expected full render of `s237`: cleared surface, major tick at 0 and
micro tick at 5, then the cursor indicator reporting 237px. -/
def c6L : List Cmd :=
  [Cmd.clearRect 0 0 6 30, Cmd.beginPath, Cmd.moveTo 0 0, Cmd.lineTo 0 15,
   Cmd.moveTo 5 0, Cmd.lineTo 5 5, Cmd.stroke, Cmd.beginPath,
   Cmd.setStrokeStyle "rgba(0, 0, 0, 0.3)", Cmd.moveTo 237 0, Cmd.lineTo 237 30,
   Cmd.stroke, Cmd.setFillStyle "black", Cmd.fillText "X: 237px" 242 15]

/-- A labelless state used to exercise the pointer-leave render. -/
def sLeaveW : RulerState :=
  { options := { defaultOptions with showLabel := false },
    width := 4, height := 30, unitDiv := 1, mouseX := 9, mouseY := 9 }

/-- Expected render after pointer-leave on `sLeaveW`: ticks only, no
cursor indicator. -/
def c7L : List Cmd :=
  [Cmd.clearRect 0 0 4 30, Cmd.beginPath, Cmd.moveTo 0 0, Cmd.lineTo 0 15, Cmd.stroke]

/-- Claim-side axis accessors: the surface extent along the orientation
axis and along the cross axis. -/
def extentDim (s : RulerState) : ℚ :=
  match s.options.orientation with
  | RulerOrientation.horizontal => s.width
  | RulerOrientation.vertical => s.height

/-- The cross-axis surface dimension (the ruler's thickness slot). -/
def crossDim (s : RulerState) : ℚ :=
  match s.options.orientation with
  | RulerOrientation.horizontal => s.height
  | RulerOrientation.vertical => s.width

/-- The same state with the cross-axis coordinate exactly 0. -/
def s2370 : RulerState := { s237 with mouseY := 0 }

/-! ### Theorems -/

theorem jsFor_stop (body : ℚ → List Cmd) (length step i : ℚ) (fuel : Nat)
    (h : ¬ i < length) : jsFor body length step i fuel = some [] := by
  cases fuel <;> simp [jsFor, h]

theorem jsFor_step (body : ℚ → List Cmd) (length step i : ℚ) (fuel : Nat)
    (h : i < length) :
    jsFor body length step i (fuel + 1) =
      (jsFor body length step (i + step) fuel).map (fun rest => body i ++ rest) := by
  simp [jsFor, h]

theorem numIters_eq_zero (start length step : ℚ) (hstep : 0 < step)
    (h : ¬ start < length) : numIters start length step = 0 := by
  unfold numIters
  rw [if_pos hstep]
  have h1 : (length - start) / step ≤ 0 :=
    div_nonpos_iff.mpr (Or.inr ⟨by linarith, hstep.le⟩)
  have h2 : ⌈(length - start) / step⌉ ≤ 0 := by
    exact_mod_cast Int.ceil_le.mpr (by exact_mod_cast h1)
  exact Int.toNat_of_nonpos h2

theorem numIters_succ (start length step : ℚ) (hstep : 0 < step)
    (h : start < length) :
    numIters start length step = numIters (start + step) length step + 1 := by
  unfold numIters
  rw [if_pos hstep, if_pos hstep]
  have hne : step ≠ 0 := ne_of_gt hstep
  have key : (length - (start + step)) / step = (length - start) / step - 1 := by
    field_simp
    ring
  rw [key, Int.ceil_sub_one]
  have hpos : 0 < (length - start) / step := div_pos (by linarith) hstep
  have hcl : 0 < ⌈(length - start) / step⌉ := Int.ceil_pos.mpr hpos
  omega

/-- Closed form of the loop with a positive step: given enough fuel, the
result is the concatenation of the bodies over the visited positions. -/
theorem jsFor_closed (body : ℚ → List Cmd) (length step : ℚ) (hstep : 0 < step) :
    ∀ fuel i, numIters i length step ≤ fuel →
      jsFor body length step i fuel =
        some (((List.range (numIters i length step)).map
          (fun k : Nat => i + (k : ℚ) * step)).flatMap body) := by
  intro fuel
  induction fuel with
  | zero =>
    intro i hle
    by_cases h : i < length
    · exfalso
      have := numIters_succ i length step hstep h
      omega
    · rw [jsFor_stop body length step i 0 h, numIters_eq_zero i length step hstep h]
      simp
  | succ fuel ih =>
    intro i hle
    by_cases h : i < length
    · rw [jsFor_step body length step i fuel h, numIters_succ i length step hstep h]
      have hle2 : numIters (i + step) length step ≤ fuel := by
        have := numIters_succ i length step hstep h
        omega
      rw [ih (i + step) hle2]
      have hmap : (List.range (numIters (i + step) length step + 1)).map
            (fun k : Nat => i + (k : ℚ) * step) =
          i :: (List.range (numIters (i + step) length step)).map
            (fun k : Nat => (i + step) + (k : ℚ) * step) := by
        rw [List.range_succ_eq_map, List.map_cons, List.map_map]
        simp only [Nat.cast_zero, zero_mul, add_zero, List.cons.injEq, true_and]
        apply List.map_congr_left
        intro k _
        simp only [Function.comp_apply]
        push_cast
        ring
      rw [hmap, List.flatMap_cons]
      simp
    · rw [jsFor_stop body length step i (fuel + 1) h,
        numIters_eq_zero i length step hstep h]
      simp

/-- A loop whose step is not positive and whose guard holds initially
never terminates: every fuel is exhausted. -/
theorem jsFor_none (body : ℚ → List Cmd) (length step : ℚ) (hstep : step ≤ 0) :
    ∀ fuel i, i < length → jsFor body length step i fuel = none := by
  intro fuel
  induction fuel with
  | zero => intro i h; simp [jsFor, h]
  | succ fuel ih =>
    intro i h
    rw [jsFor_step body length step i fuel h, ih (i + step) (by linarith)]
    rfl

/-- Fuel monotonicity: a loop result is stable under more fuel. -/
theorem jsFor_mono (body : ℚ → List Cmd) (length step : ℚ) :
    ∀ fuel fuel2, fuel ≤ fuel2 → ∀ i l,
      jsFor body length step i fuel = some l →
      jsFor body length step i fuel2 = some l := by
  intro fuel
  induction fuel with
  | zero =>
    intro fuel2 _ i l h
    by_cases hi : i < length
    · simp [jsFor, hi] at h
    · rw [jsFor_stop body length step i 0 hi] at h
      rw [jsFor_stop body length step i fuel2 hi]
      exact h
  | succ fuel ih =>
    intro fuel2 hle i l h
    by_cases hi : i < length
    · obtain ⟨f2, rfl⟩ : ∃ f2, fuel2 = f2 + 1 := ⟨fuel2 - 1, by omega⟩
      rw [jsFor_step body length step i fuel hi] at h
      rw [jsFor_step body length step i f2 hi]
      cases hrec : jsFor body length step (i + step) fuel with
      | none => rw [hrec] at h; simp at h
      | some l0 =>
        rw [hrec] at h
        rw [ih f2 (by omega) (i + step) l0 hrec]
        exact h
    · rw [jsFor_stop body length step i (fuel + 1) hi] at h
      rw [jsFor_stop body length step i fuel2 hi]
      exact h

/-- Every command in a loop's output came from some body invocation. -/
theorem jsFor_mem (body : ℚ → List Cmd) (length step : ℚ) :
    ∀ fuel i l, jsFor body length step i fuel = some l →
      ∀ c ∈ l, ∃ j, c ∈ body j := by
  intro fuel
  induction fuel with
  | zero =>
    intro i l h c hc
    by_cases hi : i < length
    · simp [jsFor, hi] at h
    · rw [jsFor_stop body length step i 0 hi] at h
      cases h
      simp at hc
  | succ fuel ih =>
    intro i l h c hc
    by_cases hi : i < length
    · rw [jsFor_step body length step i fuel hi] at h
      cases hrec : jsFor body length step (i + step) fuel with
      | none => rw [hrec] at h; simp at h
      | some l0 =>
        rw [hrec] at h
        simp only [Option.map_some', Option.some.injEq] at h
        rcases List.mem_append.mp (h ▸ hc) with h1 | h2
        · exact ⟨i, h1⟩
        · exact ih (i + step) l0 hrec c h2
    · rw [jsFor_stop body length step i (fuel + 1) hi] at h
      cases h
      simp at hc

/-- A positive-step loop terminates on some fuel. -/
theorem jsFor_total (body : ℚ → List Cmd) (length step i : ℚ) (hstep : 0 < step) :
    ∃ fuel l, jsFor body length step i fuel = some l :=
  ⟨numIters i length step, _,
    jsFor_closed body length step hstep (numIters i length step) i (le_refl _)⟩

theorem filter_flatMap (l : List ℚ) (f : ℚ → List Cmd) (p : Cmd → Bool) :
    (l.flatMap f).filter p = l.flatMap (fun a => (f a).filter p) := by
  induction l with
  | nil => rfl
  | cons a l ih => simp [List.flatMap_cons, List.filter_append, ih]

theorem flatMap_congr (l : List ℚ) (f g : ℚ → List Cmd)
    (h : ∀ a ∈ l, f a = g a) : l.flatMap f = l.flatMap g := by
  induction l with
  | nil => rfl
  | cons a l ih =>
    simp only [List.flatMap_cons]
    rw [h a (by simp), ih (fun b hb => h b (by simp [hb]))]

theorem findIdx_three (p : ℚ → Bool) (a b c : ℚ) :
    [a, b, c].findIdx? p =
      if p a then some 0 else if p b then some 1 else if p c then some 2 else none := by
  by_cases ha : p a <;> by_cases hb : p b <;> by_cases hc : p c <;>
    simp [List.findIdx?_cons, ha, hb, hc]

theorem ratTrunc_intCast (n : ℤ) : ratTrunc (n : ℚ) = n := by
  unfold ratTrunc
  split <;> simp

theorem rat_den_one_iff (q : ℚ) : q.den = 1 ↔ ∃ n : ℤ, q = (n : ℚ) := by
  constructor
  · intro h
    refine ⟨q.num, ?_⟩
    have h2 := Rat.num_div_den q
    rw [h] at h2
    simpa using h2.symm
  · rintro ⟨n, rfl⟩
    exact Rat.den_intCast n

theorem jsMod_eq_zero_iff (i t : ℚ) (ht : t ≠ 0) :
    jsMod i t = 0 ↔ (i / t).den = 1 := by
  unfold jsMod
  constructor
  · intro h
    have hit : i = t * (ratTrunc (i / t) : ℚ) := by linarith
    have hdiv : i / t = (ratTrunc (i / t) : ℚ) := by
      rw [div_eq_iff ht]
      linarith [hit, mul_comm t ((ratTrunc (i / t) : ℚ) : ℚ)]
    rw [hdiv]
    exact Rat.den_intCast _
  · intro h
    obtain ⟨n, hn⟩ := (rat_den_one_iff _).mp h
    have hi : i = (n : ℚ) * t := (div_eq_iff ht).mp hn
    rw [hn, ratTrunc_intCast, hi]
    ring

/-- For a positive interval, the source's tick test agrees with the
claims' "evenly divisible" wording. -/
theorem tickPred_iff (i t : ℚ) (ht : 0 < t) :
    tickPred i t = evenlyDivides t i := by
  unfold tickPred jsModEqZero evenlyDivides
  have htne : t ≠ 0 := ne_of_gt ht
  simp [htne, ht, jsMod_eq_zero_iff i t htne]

/-- For a non-positive interval, the source's tick test is false: the
category is disabled. -/
theorem tickPred_nonpos (i t : ℚ) (ht : t ≤ 0) : tickPred i t = false := by
  unfold tickPred
  simp only [Bool.and_eq_false_iff]
  right
  simpa using not_lt.mpr ht

/-- With positive intervals, one iteration of the second copy's tick
loop draws exactly the priority-chosen tick of the claims. -/
theorem tickCmds_filter_path (o : RulerOrientation) (major minor micro i : ℚ)
    (sl : Bool) (hmaj : 0 < major) (hmin : 0 < minor) (hmic : 0 < micro) :
    (Impl2.tickCmds o major minor micro sl i).filter isPath =
      claimTick o major minor micro i := by
  unfold Impl2.tickCmds claimTick
  rw [findIdx_three]
  simp only [tickPred_iff i major hmaj, tickPred_iff i minor hmin,
    tickPred_iff i micro hmic]
  by_cases h1 : evenlyDivides major i = true <;>
    by_cases h2 : evenlyDivides minor i = true <;>
      by_cases h3 : evenlyDivides micro i = true <;>
        cases o <;> cases sl <;>
          simp [h1, h2, h3, tickHeights, claimLine, isPath]

/-- One iteration of the second copy's tick loop emits a text label
exactly when labels are on and the position passes the major test. -/
theorem tickCmds_filter_text (o : RulerOrientation) (major minor micro i : ℚ)
    (sl : Bool) :
    (Impl2.tickCmds o major minor micro sl i).filter isFillText =
      (if sl = true ∧ tickPred i major = true then
        (match o with
         | RulerOrientation.horizontal => [Cmd.fillText (jsNumToString i) (i + 2) 25]
         | RulerOrientation.vertical => [Cmd.fillText (jsNumToString i) 17 (i + 10)])
       else []) := by
  unfold Impl2.tickCmds
  rw [findIdx_three]
  by_cases h1 : tickPred i major = true <;>
    by_cases h2 : tickPred i minor = true <;>
      by_cases h3 : tickPred i micro = true <;>
        cases o <;> cases sl <;>
          simp [h1, h2, h3, tickHeights, isFillText] <;> norm_num

/-- The first copy's if/else tick chain computes the same commands as
the second copy's `findIndex`-driven body. -/
theorem tickCmds_eq (o : RulerOrientation) (major minor micro i : ℚ) (sl : Bool) :
    Impl1.tickCmds o major minor micro sl i = Impl2.tickCmds o major minor micro sl i := by
  unfold Impl1.tickCmds Impl2.tickCmds
  rw [findIdx_three]
  by_cases h1 : tickPred i major = true <;>
    by_cases h2 : tickPred i minor = true <;>
      by_cases h3 : tickPred i micro = true <;>
        cases o <;> cases sl <;>
          simp [h1, h2, h3, tickHeights] <;> norm_num

theorem tickCmds2_no_style (o : RulerOrientation) (major minor micro i : ℚ)
    (sl : Bool) (str : String) :
    Cmd.setStrokeStyle str ∉ Impl2.tickCmds o major minor micro sl i := by
  unfold Impl2.tickCmds
  rw [findIdx_three]
  by_cases h1 : tickPred i major = true <;>
    by_cases h2 : tickPred i minor = true <;>
      by_cases h3 : tickPred i micro = true <;>
        cases o <;> cases sl <;> simp [h1, h2, h3]

theorem inMajorBody_no_style (o : RulerOrientation) (i : ℚ) (str : String) :
    Cmd.setStrokeStyle str ∉ Impl1.inMajorBody o i := by
  cases o <;> simp [Impl1.inMajorBody]

theorem inMinorBody_no_style (o : RulerOrientation) (major i : ℚ) (str : String) :
    Cmd.setStrokeStyle str ∉ Impl1.inMinorBody o major i := by
  unfold Impl1.inMinorBody
  split
  · simp
  · cases o <;> simp

theorem inMicroBody_no_style (o : RulerOrientation) (major minor i : ℚ) (str : String) :
    Cmd.setStrokeStyle str ∉ Impl1.inMicroBody o major minor i := by
  unfold Impl1.inMicroBody
  split
  · simp
  · split
    · simp
    · cases o <;> simp

/-- The tick layer of the second copy never touches the stroke style. -/
theorem drawTicks2_no_style (o : RulerOrientation) (L major minor micro start ud : ℚ)
    (slb : Bool) (fuel : Nat) (t : List Cmd) (str : String)
    (h : Impl2.drawTicks o L major minor micro start slb ud fuel = some t) :
    Cmd.setStrokeStyle str ∉ t := by
  unfold Impl2.drawTicks at h
  cases hj : jsFor (Impl2.tickCmds o major minor micro slb) L ud start fuel with
  | none => rw [hj] at h; simp at h
  | some l =>
    rw [hj] at h
    simp only [Option.map_some', Option.some.injEq] at h
    subst h
    intro hmem
    rcases List.mem_append.mp hmem with hm | hm
    · rcases List.mem_cons.mp hm with hm2 | hm2
      · exact Cmd.noConfusion hm2
      · obtain ⟨j, hj2⟩ := jsFor_mem _ L ud fuel start l hj _ hm2
        exact tickCmds2_no_style o major minor micro j slb str hj2
    · rcases List.mem_singleton.mp hm with h
      exact Cmd.noConfusion h

/-- The tick layer of the first copy never touches the stroke style. -/
theorem drawTicks1_no_style (u : String) (o : RulerOrientation)
    (L major minor micro start ud : ℚ) (slb : Bool) (fuel : Nat) (t : List Cmd)
    (str : String)
    (h : Impl1.drawTicks u o L major minor micro start slb ud fuel = some t) :
    Cmd.setStrokeStyle str ∉ t := by
  unfold Impl1.drawTicks at h
  by_cases hu : u = "in"
  · rw [if_pos hu] at h
    cases hj1 : jsFor (Impl1.inMajorBody o) L major start fuel with
    | none => rw [hj1] at h; simp at h
    | some l1 =>
      rw [hj1] at h
      cases hj2 : jsFor (Impl1.inMinorBody o major) L minor start fuel with
      | none => rw [hj2] at h; simp at h
      | some l2 =>
        rw [hj2] at h
        cases hj3 : jsFor (Impl1.inMicroBody o major minor) L micro start fuel with
        | none => rw [hj3] at h; simp at h
        | some l3 =>
          rw [hj3] at h
          simp only [Option.some.injEq] at h
          subst h
          intro hmem
          rcases List.mem_append.mp hmem with hm | hm
          · rcases List.mem_cons.mp hm with hm2 | hm2
            · exact Cmd.noConfusion hm2
            · rcases List.mem_append.mp hm2 with hm3 | hm3
              · rcases List.mem_append.mp hm3 with hm4 | hm4
                · obtain ⟨j, hj⟩ := jsFor_mem _ L major fuel start l1 hj1 _ hm4
                  exact inMajorBody_no_style o j str hj
                · obtain ⟨j, hj⟩ := jsFor_mem _ L minor fuel start l2 hj2 _ hm4
                  exact inMinorBody_no_style o major j str hj
              · obtain ⟨j, hj⟩ := jsFor_mem _ L micro fuel start l3 hj3 _ hm3
                exact inMicroBody_no_style o major minor j str hj
          · rcases List.mem_singleton.mp hm with h
            exact Cmd.noConfusion h
  · rw [if_neg hu] at h
    cases hj : jsFor (Impl1.tickCmds o major minor micro slb) L ud start fuel with
    | none => rw [hj] at h; simp at h
    | some l =>
      rw [hj] at h
      simp only [Option.map_some', Option.some.injEq] at h
      subst h
      intro hmem
      rcases List.mem_append.mp hmem with hm | hm
      · rcases List.mem_cons.mp hm with hm2 | hm2
        · exact Cmd.noConfusion hm2
        · obtain ⟨j, hj2⟩ := jsFor_mem _ L ud fuel start l hj _ hm2
          rw [tickCmds_eq] at hj2
          exact tickCmds2_no_style o major minor micro j slb str hj2
      · rcases List.mem_singleton.mp hm with h
        exact Cmd.noConfusion h

theorem marker_mem_dmp2 (s : RulerState) :
    Cmd.setStrokeStyle "rgba(0, 0, 0, 0.3)" ∈ Impl2.drawMousePosition s ↔
      (0 ≤ s.mouseX ∧ 0 ≤ s.mouseY) := by
  unfold Impl2.drawMousePosition
  by_cases hc : s.mouseX < 0 ∨ s.mouseY < 0
  · rw [if_pos hc]
    simp only [List.not_mem_nil, false_iff]
    intro hcon
    rcases hc with h | h
    · exact absurd hcon.1 (not_le.mpr h)
    · exact absurd hcon.2 (not_le.mpr h)
  · rw [if_neg hc]
    push_neg at hc
    cases ho : s.options.orientation <;> simp [ho, hc.1, hc.2]

theorem marker_mem_dmp1 (s : RulerState) :
    Cmd.setStrokeStyle "rgba(0, 0, 0, 0.3)" ∈ Impl1.drawMousePosition s ↔
      (0 < s.mouseX ∧ 0 < s.mouseY) := by
  unfold Impl1.drawMousePosition
  by_cases hc : s.mouseX ≤ 0 ∨ s.mouseY ≤ 0
  · rw [if_pos hc]
    simp only [List.not_mem_nil, false_iff]
    intro hcon
    rcases hc with h | h
    · exact absurd hcon.1 (not_lt.mpr h)
    · exact absurd hcon.2 (not_lt.mpr h)
  · rw [if_neg hc]
    push_neg at hc
    cases ho : s.options.orientation <;> simp [ho, hc.1, hc.2]

theorem render_core_marker2 (s : RulerState) (t cmds : List Cmd)
    (h : cmds = Cmd.clearRect 0 0 s.width s.height :: t ++
      (if s.options.showMousePosition then Impl2.drawMousePosition s else []))
    (ht : ∀ str, Cmd.setStrokeStyle str ∉ t) :
    (Cmd.setStrokeStyle "rgba(0, 0, 0, 0.3)" ∈ cmds ↔
      s.options.showMousePosition = true ∧ 0 ≤ s.mouseX ∧ 0 ≤ s.mouseY) := by
  subst h
  constructor
  · intro hm
    rcases List.mem_append.mp hm with hm2 | hm2
    · rcases List.mem_cons.mp hm2 with hm3 | hm3
      · exact Cmd.noConfusion hm3
      · exact absurd hm3 (ht _)
    · by_cases hsm : s.options.showMousePosition
      · rw [if_pos hsm] at hm2
        exact ⟨hsm, (marker_mem_dmp2 s).mp hm2⟩
      · rw [if_neg hsm] at hm2
        exact absurd hm2 (List.not_mem_nil _)
  · rintro ⟨hsm, hx, hy⟩
    apply List.mem_append.mpr
    right
    rw [if_pos hsm]
    exact (marker_mem_dmp2 s).mpr ⟨hx, hy⟩

theorem render_core_marker1 (s : RulerState) (t cmds : List Cmd)
    (h : cmds = Cmd.clearRect 0 0 s.width s.height :: t ++
      (if s.options.showMousePosition then Impl1.drawMousePosition s else []))
    (ht : ∀ str, Cmd.setStrokeStyle str ∉ t) :
    (Cmd.setStrokeStyle "rgba(0, 0, 0, 0.3)" ∈ cmds ↔
      s.options.showMousePosition = true ∧ 0 < s.mouseX ∧ 0 < s.mouseY) := by
  subst h
  constructor
  · intro hm
    rcases List.mem_append.mp hm with hm2 | hm2
    · rcases List.mem_cons.mp hm2 with hm3 | hm3
      · exact Cmd.noConfusion hm3
      · exact absurd hm3 (ht _)
    · by_cases hsm : s.options.showMousePosition
      · rw [if_pos hsm] at hm2
        exact ⟨hsm, (marker_mem_dmp1 s).mp hm2⟩
      · rw [if_neg hsm] at hm2
        exact absurd hm2 (List.not_mem_nil _)
  · rintro ⟨hsm, hx, hy⟩
    apply List.mem_append.mpr
    right
    rw [if_pos hsm]
    exact (marker_mem_dmp1 s).mpr ⟨hx, hy⟩

/-- In any completed render of the second copy, the cursor indicator's
characteristic stroke-style command appears exactly when the indicator
is drawn: cursor display on and both tracked coordinates nonnegative. -/
theorem render2_marker_iff (s : RulerState) (fuel : Nat) (cmds : List Cmd)
    (h : Impl2.renderRuler s fuel = some cmds) :
    (Cmd.setStrokeStyle "rgba(0, 0, 0, 0.3)" ∈ cmds ↔
      s.options.showMousePosition = true ∧ 0 ≤ s.mouseX ∧ 0 ≤ s.mouseY) := by
  unfold Impl2.renderRuler at h
  cases ho : s.options.orientation <;> simp only [ho] at h
  · cases hd : Impl2.drawTicks RulerOrientation.horizontal s.width s.options.tickMajor
        s.options.tickMinor s.options.tickMicro s.options.startX
        s.options.showLabel s.unitDiv fuel with
    | none => rw [hd] at h; simp at h
    | some t =>
      rw [hd] at h
      simp only [Option.map_some', Option.some.injEq] at h
      exact render_core_marker2 s t cmds h.symm
        (fun str => drawTicks2_no_style _ _ _ _ _ _ _ _ _ _ str hd)
  · cases hd : Impl2.drawTicks RulerOrientation.vertical s.height s.options.tickMajor
        s.options.tickMinor s.options.tickMicro s.options.startY
        s.options.showLabel s.unitDiv fuel with
    | none => rw [hd] at h; simp at h
    | some t =>
      rw [hd] at h
      simp only [Option.map_some', Option.some.injEq] at h
      exact render_core_marker2 s t cmds h.symm
        (fun str => drawTicks2_no_style _ _ _ _ _ _ _ _ _ _ str hd)

/-- In any completed render of the first copy, the indicator's
stroke-style command appears exactly when cursor display is on and both
tracked coordinates are strictly positive. -/
theorem render1_marker_iff (s : RulerState) (fuel : Nat) (cmds : List Cmd)
    (h : Impl1.renderRuler s fuel = some cmds) :
    (Cmd.setStrokeStyle "rgba(0, 0, 0, 0.3)" ∈ cmds ↔
      s.options.showMousePosition = true ∧ 0 < s.mouseX ∧ 0 < s.mouseY) := by
  unfold Impl1.renderRuler at h
  cases ho : s.options.orientation <;> simp only [ho] at h
  · cases hd : Impl1.drawTicks s.options.unit RulerOrientation.horizontal s.width
        s.options.tickMajor s.options.tickMinor s.options.tickMicro s.options.startX
        s.options.showLabel s.unitDiv fuel with
    | none => rw [hd] at h; simp at h
    | some t =>
      rw [hd] at h
      simp only [Option.map_some', Option.some.injEq] at h
      exact render_core_marker1 s t cmds h.symm
        (fun str => drawTicks1_no_style _ _ _ _ _ _ _ _ _ _ _ str hd)
  · cases hd : Impl1.drawTicks s.options.unit RulerOrientation.vertical s.height
        s.options.tickMajor s.options.tickMinor s.options.tickMicro s.options.startY
        s.options.showLabel s.unitDiv fuel with
    | none => rw [hd] at h; simp at h
    | some t =>
      rw [hd] at h
      simp only [Option.map_some', Option.some.injEq] at h
      exact render_core_marker1 s t cmds h.symm
        (fun str => drawTicks1_no_style _ _ _ _ _ _ _ _ _ _ _ str hd)

/-- For any unit other than `"in"`, the first copy's `drawTicks` is the
same function as the second copy's. -/
theorem drawTicks1_eq_drawTicks2 (u : String) (o : RulerOrientation)
    (L major minor micro start ud : ℚ) (sl : Bool) (fuel : Nat) (hu : u ≠ "in") :
    Impl1.drawTicks u o L major minor micro start sl ud fuel =
      Impl2.drawTicks o L major minor micro start sl ud fuel := by
  unfold Impl1.drawTicks Impl2.drawTicks
  rw [if_neg hu]
  have hbody : Impl1.tickCmds o major minor micro sl = Impl2.tickCmds o major minor micro sl :=
    funext (fun i => tickCmds_eq o major minor micro i sl)
  rw [hbody]

/-- C1 (amended): for every configuration with positive tick intervals
and a positive scale factor, the tick-drawing operation of the second
copy — and of the first copy for any unit other than `"in"` — iterates
`i` from the start offset up to (excluding) the surface length stepping
by the scale factor, and at each visited position draws exactly one tick
chosen by priority: major of length 15 if `i` is evenly divisible by the
major interval, else minor of length 10, else micro of length 5, and no
tick when none divides. -/
theorem c1_tick_iteration_amended (o : RulerOrientation) (u : String)
    (L major minor micro start step : ℚ) (sl : Bool) (fuel : Nat)
    (hmaj : 0 < major) (hmin : 0 < minor) (hmic : 0 < micro) (hstep : 0 < step)
    (hfuel : numIters start L step ≤ fuel) (hu : u ≠ "in") :
    (∃ cmds, Impl2.drawTicks o L major minor micro start sl step fuel = some cmds ∧
      cmds.filter isPath =
        (iterPositions start L step).flatMap (claimTick o major minor micro)) ∧
    (∃ cmds, Impl1.drawTicks u o L major minor micro start sl step fuel = some cmds ∧
      cmds.filter isPath =
        (iterPositions start L step).flatMap (claimTick o major minor micro)) := by
  have hjs := jsFor_closed (Impl2.tickCmds o major minor micro sl) L step hstep fuel
    start hfuel
  have hmain : ∃ cmds,
      Impl2.drawTicks o L major minor micro start sl step fuel = some cmds ∧
      cmds.filter isPath =
        (iterPositions start L step).flatMap (claimTick o major minor micro) := by
    refine ⟨Cmd.beginPath ::
      (((List.range (numIters start L step)).map
        (fun k : Nat => start + (k : ℚ) * step)).flatMap
          (Impl2.tickCmds o major minor micro sl)) ++ [Cmd.stroke], ?_, ?_⟩
    · unfold Impl2.drawTicks
      rw [hjs]
      rfl
    · simp [isPath, filter_flatMap, iterPositions]
      apply flatMap_congr
      intro a _
      exact tickCmds_filter_path o major minor micro a sl hmaj hmin hmic
  refine ⟨hmain, ?_⟩
  rw [drawTicks1_eq_drawTicks2 u o L major minor micro start step sl fuel hu]
  exact hmain

/-- C1 counterexample: with the unit `"in"`, the first copy's
`drawTicks` does not step by the scale factor — it draws ticks (for
instance a minor tick at 30 and micro ticks at 10, 20, 40, 50) at
positions the claimed scale-stepped iteration (step 60) never visits. -/
theorem c1_tick_iteration_counterexample :
    ¬ ((Impl1.drawTicks "in" RulerOrientation.horizontal 60 60 30 10 0 true 60 10).map
        (fun l => l.filter isPath) =
      some ((iterPositions 0 60 60).flatMap
        (claimTick RulerOrientation.horizontal 60 30 10))) := by
  norm_num [Impl1.drawTicks, jsFor, Impl1.inMajorBody, Impl1.inMinorBody,
    Impl1.inMicroBody, jsModEqZero, jsMod, ratTrunc, iterPositions, numIters,
    claimTick, claimLine, evenlyDivides, isPath, List.range_succ,
    List.range_zero, List.flatMap_cons, List.flatMap_nil]
  exact List.cons_ne_nil _ _

/-- C1 witness: the spec's own scenario (major 50, minor 10, micro 5,
length 120, pixel unit, so step 1). -/
theorem c1_tick_iteration_witness :
    (∃ cmds, Impl2.drawTicks RulerOrientation.horizontal 120 50 10 5 0 true 1 120 =
        some cmds ∧
      cmds.filter isPath =
        (iterPositions 0 120 1).flatMap (claimTick RulerOrientation.horizontal 50 10 5)) ∧
    (∃ cmds, Impl1.drawTicks "px" RulerOrientation.horizontal 120 50 10 5 0 true 1 120 =
        some cmds ∧
      cmds.filter isPath =
        (iterPositions 0 120 1).flatMap (claimTick RulerOrientation.horizontal 50 10 5)) :=
  c1_tick_iteration_amended RulerOrientation.horizontal "px" 120 50 10 5 0 1 true 120
    (by norm_num) (by norm_num) (by norm_num) (by norm_num)
    (by norm_num [numIters]) (by decide)

/-- With a positive scale factor, the second copy's `drawTicks`
completes on some fuel. -/
theorem drawTicks2_some (o : RulerOrientation) (L major minor micro start ud : ℚ)
    (sl : Bool) (hud : 0 < ud) :
    ∃ fuel cmds, Impl2.drawTicks o L major minor micro start sl ud fuel = some cmds := by
  obtain ⟨fuel, l, hl⟩ := jsFor_total (Impl2.tickCmds o major minor micro sl) L ud start hud
  refine ⟨fuel, Cmd.beginPath :: l ++ [Cmd.stroke], ?_⟩
  unfold Impl2.drawTicks
  rw [hl]
  rfl

/-- With a positive scale factor — and positive intervals when the unit
is `"in"` — the first copy's `drawTicks` completes on some fuel. -/
theorem drawTicks1_some (u : String) (o : RulerOrientation)
    (L major minor micro start ud : ℚ) (sl : Bool) (hud : 0 < ud)
    (hin : u = "in" → 0 < major ∧ 0 < minor ∧ 0 < micro) :
    ∃ fuel cmds, Impl1.drawTicks u o L major minor micro start sl ud fuel = some cmds := by
  by_cases hu : u = "in"
  · obtain ⟨hmaj, hmin, hmic⟩ := hin hu
    obtain ⟨f1, l1, h1⟩ := jsFor_total (Impl1.inMajorBody o) L major start hmaj
    obtain ⟨f2, l2, h2⟩ := jsFor_total (Impl1.inMinorBody o major) L minor start hmin
    obtain ⟨f3, l3, h3⟩ := jsFor_total (Impl1.inMicroBody o major minor) L micro start hmic
    refine ⟨max f1 (max f2 f3), Cmd.beginPath :: (l1 ++ l2 ++ l3) ++ [Cmd.stroke], ?_⟩
    unfold Impl1.drawTicks
    rw [if_pos hu,
      jsFor_mono _ L major f1 _ (le_max_left _ _) start l1 h1,
      jsFor_mono _ L minor f2 _ ((le_max_left f2 f3).trans (le_max_right f1 _)) start l2 h2,
      jsFor_mono _ L micro f3 _ ((le_max_right f2 f3).trans (le_max_right f1 _)) start l3 h3]
  · obtain ⟨fuel, cmds, h⟩ := drawTicks2_some o L major minor micro start ud sl hud
    refine ⟨fuel, cmds, ?_⟩
    rw [drawTicks1_eq_drawTicks2 u o L major minor micro start ud sl fuel hu]
    exact h

/-- With a positive scale factor, a render of the second copy
completes. -/
theorem render2_some (s : RulerState) (h2 : 0 < s.unitDiv) :
    ∃ fuel cmds, Impl2.renderRuler s fuel = some cmds := by
  cases ho : s.options.orientation
  · obtain ⟨fuel, cmds, h⟩ := drawTicks2_some RulerOrientation.horizontal s.width
      s.options.tickMajor s.options.tickMinor s.options.tickMicro s.options.startX
      s.unitDiv s.options.showLabel h2
    refine ⟨fuel, Cmd.clearRect 0 0 s.width s.height :: cmds ++
      (if s.options.showMousePosition then Impl2.drawMousePosition s else []), ?_⟩
    unfold Impl2.renderRuler
    simp only [ho]
    rw [h]
    rfl
  · obtain ⟨fuel, cmds, h⟩ := drawTicks2_some RulerOrientation.vertical s.height
      s.options.tickMajor s.options.tickMinor s.options.tickMicro s.options.startY
      s.unitDiv s.options.showLabel h2
    refine ⟨fuel, Cmd.clearRect 0 0 s.width s.height :: cmds ++
      (if s.options.showMousePosition then Impl2.drawMousePosition s else []), ?_⟩
    unfold Impl2.renderRuler
    simp only [ho]
    rw [h]
    rfl

/-- With a positive scale factor — and positive intervals in the `"in"`
mode — a render of the first copy completes. -/
theorem render1_some (s : RulerState) (h2 : 0 < s.unitDiv)
    (hin : s.options.unit = "in" → 0 < s.options.tickMajor ∧ 0 < s.options.tickMinor ∧
      0 < s.options.tickMicro) :
    ∃ fuel cmds, Impl1.renderRuler s fuel = some cmds := by
  cases ho : s.options.orientation
  · obtain ⟨fuel, cmds, h⟩ := drawTicks1_some s.options.unit RulerOrientation.horizontal
      s.width s.options.tickMajor s.options.tickMinor s.options.tickMicro
      s.options.startX s.unitDiv s.options.showLabel h2 hin
    refine ⟨fuel, Cmd.clearRect 0 0 s.width s.height :: cmds ++
      (if s.options.showMousePosition then Impl1.drawMousePosition s else []), ?_⟩
    unfold Impl1.renderRuler
    simp only [ho]
    rw [h]
    rfl
  · obtain ⟨fuel, cmds, h⟩ := drawTicks1_some s.options.unit RulerOrientation.vertical
      s.height s.options.tickMajor s.options.tickMinor s.options.tickMicro
      s.options.startY s.unitDiv s.options.showLabel h2 hin
    refine ⟨fuel, Cmd.clearRect 0 0 s.width s.height :: cmds ++
      (if s.options.showMousePosition then Impl1.drawMousePosition s else []), ?_⟩
    unfold Impl1.renderRuler
    simp only [ho]
    rw [h]
    rfl

/-- C2: the claim that a non-positive tick interval merely disables its
category and rendering still completes holds for the second copy (shown
here on a concrete all-disabled configuration, which renders to a bare
cleared surface with an empty stroke), but the first copy's `"in"`
branch loops forever when the major interval is 0: `i += 0` never
advances the loop variable. -/
theorem c2_disabled_interval_bug :
    impl1DrawTicksDiverges "in" RulerOrientation.horizontal 30 0 30 10 0 true 1 ∧
    Impl2.renderRuler (Impl2.constructState optsC2 4 30 5) 10 =
      some [Cmd.clearRect 0 0 4 30, Cmd.beginPath, Cmd.stroke] := by
  constructor
  · intro fuel
    unfold Impl1.drawTicks
    rw [if_pos rfl,
      jsFor_none (Impl1.inMajorBody RulerOrientation.horizontal) 30 0 (le_refl 0)
        fuel 0 (by norm_num)]
  · norm_num [Impl2.renderRuler, Impl2.constructState, Impl2.drawTicks,
      Impl2.getPixelsPerUnit, Impl2.calcPixelsPerMM, optsC2, defaultOptions, jsFor,
      Impl2.tickCmds, tickPred, jsModEqZero, jsMod, ratTrunc, List.findIdx?_cons,
      List.findIdx?_nil]

/-- C3 counterexample: when the probe measures 0 pixels per millimeter
(a detached or undisplayed document body) and the unit is `"mm"`, the
scale factor is 0 and the very first render after construction loops
forever. -/
theorem c3_render_termination_counterexample :
    impl2RenderDiverges (Impl2.constructState optsMM 100 30 0) := by
  intro fuel
  have hstate : Impl2.constructState optsMM 100 30 0 =
      { options := optsMM, width := 100, height := 30, unitDiv := 0,
        mouseX := 0, mouseY := 0 } := by
    norm_num [Impl2.constructState, Impl2.getPixelsPerUnit, Impl2.calcPixelsPerMM,
      optsMM, defaultOptions]
    decide
  rw [hstate]
  have h1 : jsFor (Impl2.tickCmds RulerOrientation.horizontal 100 20 10 true)
      100 0 0 fuel = none :=
    jsFor_none _ 100 0 (le_refl 0) fuel 0 (by norm_num)
  simp [Impl2.renderRuler, Impl2.drawTicks, optsMM, defaultOptions, h1]

/-- C3 (amended): every render terminates provided the instance's scale
factor is positive — and, for the first copy in `"in"` mode, provided
the tick intervals are positive.  (The counterexample shows the claim's
unrestricted form fails: a measured pixels-per-millimeter of 0 makes
the render loop forever.) -/
theorem c3_render_termination_amended (s : RulerState) (h2 : 0 < s.unitDiv)
    (hin : s.options.unit = "in" → 0 < s.options.tickMajor ∧ 0 < s.options.tickMinor ∧
      0 < s.options.tickMicro) :
    (∃ fuel cmds, Impl2.renderRuler s fuel = some cmds) ∧
    (∃ fuel cmds, Impl1.renderRuler s fuel = some cmds) :=
  ⟨render2_some s h2, render1_some s h2 hin⟩

/-- C3 witness: a freshly constructed default (pixel-unit) instance
renders to completion in both copies. -/
theorem c3_render_termination_witness :
    (∃ fuel cmds, Impl2.renderRuler sPx fuel = some cmds) ∧
    (∃ fuel cmds, Impl1.renderRuler sPx fuel = some cmds) :=
  c3_render_termination_amended sPx
    (by norm_num [sPx, Impl2.constructState, Impl2.getPixelsPerUnit, defaultOptions])
    (fun h => absurd h (by norm_num [sPx, Impl2.constructState, defaultOptions]; decide))

/-- C4 (amended): the unit-to-pixel scale factor is strictly positive
after construction, refresh, pointer-move and pointer-leave, for every
unit string, provided the measured pixels-per-millimeter is positive;
in the first copy (hardcoded table) it is unconditionally positive, and
the pointer handlers never change it. -/
theorem c4_scale_positive_amended (u : String) (p : ℚ) (s : RulerState)
    (ce : Option ℚ) (opts : RulerOptions) (w hgt a b c d : ℚ) (hp : 0 < p) :
    0 < Impl2.getPixelsPerUnit u p ∧
    0 < (Impl2.constructState opts w hgt p).unitDiv ∧
    0 < (Impl2.refreshState s ce p).unitDiv ∧
    (Impl2.handleMouseLeaveState s).unitDiv = s.unitDiv ∧
    (Impl2.handleMouseMoveState s a b c d).unitDiv = s.unitDiv ∧
    0 < Impl1.getPixelsPerUnit u ∧
    0 < (Impl1.constructState opts w hgt).unitDiv ∧
    0 < (Impl1.refreshState s ce).unitDiv := by
  have h2 : ∀ v : String, 0 < Impl2.getPixelsPerUnit v p := by
    intro v
    unfold Impl2.getPixelsPerUnit Impl2.calcPixelsPerMM
    split_ifs <;> positivity
  have h1 : ∀ v : String, 0 < Impl1.getPixelsPerUnit v := by
    intro v
    unfold Impl1.getPixelsPerUnit
    split_ifs <;> norm_num
  refine ⟨h2 u, h2 opts.unit, ?_, rfl, rfl, h1 u, h1 opts.unit, ?_⟩
  · cases ho : s.options.orientation <;> simp [Impl2.refreshState, ho] <;> exact h2 _
  · cases ho : s.options.orientation <;> simp [Impl1.refreshState, ho] <;> exact h1 _

/-- C4 counterexample: construction with unit `"mm"` and a measured
pixels-per-millimeter of 0 yields a scale factor of 0, refuting the
unconditional invariant. -/
theorem c4_scale_positive_counterexample :
    ¬ (0 < (Impl2.constructState optsMM 100 30 0).unitDiv) := by
  have hstate : (Impl2.constructState optsMM 100 30 0).unitDiv = 0 := by
    norm_num [Impl2.constructState, Impl2.getPixelsPerUnit, Impl2.calcPixelsPerMM,
      optsMM, defaultOptions]
    decide
  rw [hstate]
  norm_num

/-- C4 witness: a positive probe measurement makes every scale factor
positive at a concrete instance. -/
theorem c4_scale_positive_witness :
    (0:ℚ) < 4 ∧
    (0 < Impl2.getPixelsPerUnit "mm" 4 ∧
     0 < (Impl2.constructState defaultOptions 4 30 4).unitDiv ∧
     0 < (Impl2.refreshState sPx (some 50) 4).unitDiv ∧
     (Impl2.handleMouseLeaveState sPx).unitDiv = sPx.unitDiv ∧
     (Impl2.handleMouseMoveState sPx 1 2 3 4).unitDiv = sPx.unitDiv ∧
     0 < Impl1.getPixelsPerUnit "mm" ∧
     0 < (Impl1.constructState defaultOptions 4 30).unitDiv ∧
     0 < (Impl1.refreshState sPx (some 50)).unitDiv) :=
  ⟨by norm_num,
   c4_scale_positive_amended "mm" 4 sPx (some 50) defaultOptions 4 30 1 2 3 4 (by norm_num)⟩

/-- C5 (amended): the second copy's scale computation satisfies exactly
the claimed table for the measured value `p` — px ↦ 1, mm ↦ p,
cm ↦ 10·p, in ↦ 25.4·p.  The first copy satisfies the same ratios but
with a hardcoded p₀ = 60/25.4 that ignores the measurement. -/
theorem c5_scale_table_amended (p : ℚ) :
    Impl2.getPixelsPerUnit "px" p = 1 ∧
    Impl2.getPixelsPerUnit "mm" p = p ∧
    Impl2.getPixelsPerUnit "cm" p = 10 * p ∧
    Impl2.getPixelsPerUnit "in" p = 25.4 * p ∧
    Impl1.getPixelsPerUnit "px" = 1 ∧
    Impl1.getPixelsPerUnit "mm" = 60 / 25.4 ∧
    Impl1.getPixelsPerUnit "cm" = 10 * (60 / 25.4) ∧
    Impl1.getPixelsPerUnit "in" = 25.4 * (60 / 25.4) := by
  refine ⟨?_, ?_, ?_, ?_, ?_, ?_, ?_, ?_⟩ <;>
    simp [Impl2.getPixelsPerUnit, Impl2.calcPixelsPerMM, Impl1.getPixelsPerUnit] <;>
    norm_num <;> ring

/-- C5 counterexample: the first copy's `"mm"` value is the fixed
constant 60/25.4, not the measured pixels-per-millimeter (here 4, a
typical live measurement). -/
theorem c5_scale_table_counterexample :
    Impl1.getPixelsPerUnit "mm" = 60 / 25.4 ∧ (60 / 25.4 : ℚ) ≠ 4 := by
  constructor
  · simp [Impl1.getPixelsPerUnit]
  · norm_num

/-- C6 (amended): in the second copy the cursor indicator (full-span
guide line plus "axis: value unit" label, the value being the tracked
coordinate divided by the scale factor rounded to the nearest integer)
is drawn exactly when `showMousePosition` is on and both tracked
coordinates are ≥ 0; the first copy requires both to be strictly
positive, so a pointer on the exact origin line shows no indicator
there. -/
theorem c6_cursor_indicator_amended (s : RulerState) (fuel : Nat) (cmds : List Cmd)
    (hr : Impl2.renderRuler s fuel = some cmds) :
    (Impl2.drawMousePosition s =
      if 0 ≤ s.mouseX ∧ 0 ≤ s.mouseY then claimCursorIndicator s else []) ∧
    (Impl1.drawMousePosition s =
      if 0 < s.mouseX ∧ 0 < s.mouseY then claimCursorIndicator s else []) ∧
    (Cmd.setStrokeStyle "rgba(0, 0, 0, 0.3)" ∈ cmds ↔
      s.options.showMousePosition = true ∧ 0 ≤ s.mouseX ∧ 0 ≤ s.mouseY) := by
  refine ⟨?_, ?_, render2_marker_iff s fuel cmds hr⟩
  · unfold Impl2.drawMousePosition claimCursorIndicator
    by_cases hc : 0 ≤ s.mouseX ∧ 0 ≤ s.mouseY
    · have hng : ¬ (s.mouseX < 0 ∨ s.mouseY < 0) := by
        rintro (h | h)
        · exact absurd hc.1 (not_le.mpr h)
        · exact absurd hc.2 (not_le.mpr h)
      rw [if_neg hng, if_pos hc]
    · have hlt : s.mouseX < 0 ∨ s.mouseY < 0 := by
        rcases not_and_or.mp hc with h | h
        · exact Or.inl (not_le.mp h)
        · exact Or.inr (not_le.mp h)
      rw [if_pos hlt, if_neg hc]
  · unfold Impl1.drawMousePosition claimCursorIndicator
    by_cases hc : 0 < s.mouseX ∧ 0 < s.mouseY
    · have hng : ¬ (s.mouseX ≤ 0 ∨ s.mouseY ≤ 0) := by
        rintro (h | h)
        · exact absurd hc.1 (not_lt.mpr h)
        · exact absurd hc.2 (not_lt.mpr h)
      rw [if_neg hng, if_pos hc]
    · have hle : s.mouseX ≤ 0 ∨ s.mouseY ≤ 0 := by
        rcases not_and_or.mp hc with h | h
        · exact Or.inl (not_lt.mp h)
        · exact Or.inr (not_lt.mp h)
      rw [if_pos hle, if_neg hc]

/-- C6 counterexample: with the pointer at (237, 0) — both coordinates
valid per the claim's "≥ 0" criterion and cursor display on — the first
copy draws no indicator at all (its guard is `<= 0`, not `< 0`). -/
theorem c6_cursor_indicator_counterexample :
    Impl1.drawMousePosition s2370 = [] ∧
    s2370.options.showMousePosition = true ∧ s2370.mouseX = 237 ∧ s2370.mouseY = 0 := by
  refine ⟨?_, rfl, rfl, rfl⟩
  unfold Impl1.drawMousePosition
  rw [if_pos (Or.inr (by norm_num [s2370, s237]))]

/-- C6 witness: the spec's scenario — pixel unit, pointer at local
coordinate 237 on a horizontal ruler — renders the indicator with the
label "X: 237px". -/
theorem c6_cursor_indicator_witness :
    Impl2.renderRuler s237 6 = some c6L ∧
    Cmd.fillText "X: 237px" 242 15 ∈ c6L ∧
    ((Impl2.drawMousePosition s237 =
       if 0 ≤ s237.mouseX ∧ 0 ≤ s237.mouseY then claimCursorIndicator s237 else []) ∧
     (Impl1.drawMousePosition s237 =
       if 0 < s237.mouseX ∧ 0 < s237.mouseY then claimCursorIndicator s237 else []) ∧
     (Cmd.setStrokeStyle "rgba(0, 0, 0, 0.3)" ∈ c6L ↔
       s237.options.showMousePosition = true ∧ 0 ≤ s237.mouseX ∧ 0 ≤ s237.mouseY)) := by
  have h1 : jsToFixed0 (237 : ℚ) = 237 := by
    unfold jsToFixed0
    norm_num
  have hstr : "X: " ++ jsToFixed0Str 237 ++ "px" = "X: 237px" := by
    unfold jsToFixed0Str
    rw [h1]
    decide
  have hr : Impl2.renderRuler s237 6 = some c6L := by
    norm_num [Impl2.renderRuler, Impl2.drawTicks, Impl2.drawMousePosition, s237,
      defaultOptions, jsFor, Impl2.tickCmds, tickPred, jsModEqZero, jsMod, ratTrunc,
      List.findIdx?_cons, List.findIdx?_nil, tickHeights, hstr, c6L]
  exact ⟨hr, by simp [c6L], c6_cursor_indicator_amended s237 6 c6L hr⟩

/-- C7: after pointer-leave both tracked coordinates are the sentinel
-1 in both copies, the cursor-indicator routine then draws nothing, and
the render the handler immediately performs contains no cursor guide
stroke regardless of any prior pointer-move state. -/
theorem c7_pointer_leave_confirmed (s : RulerState) :
    (Impl2.handleMouseLeaveState s).mouseX = -1 ∧
    (Impl2.handleMouseLeaveState s).mouseY = -1 ∧
    (Impl1.handleMouseLeaveState s).mouseX = -1 ∧
    (Impl1.handleMouseLeaveState s).mouseY = -1 ∧
    Impl2.drawMousePosition (Impl2.handleMouseLeaveState s) = [] ∧
    Impl1.drawMousePosition (Impl1.handleMouseLeaveState s) = [] ∧
    (∀ fuel cmds, (Impl2.handleMouseLeave s fuel).2 = some cmds →
      Cmd.setStrokeStyle "rgba(0, 0, 0, 0.3)" ∉ cmds) ∧
    (∀ fuel cmds, (Impl1.handleMouseLeave s fuel).2 = some cmds →
      Cmd.setStrokeStyle "rgba(0, 0, 0, 0.3)" ∉ cmds) := by
  refine ⟨rfl, rfl, rfl, rfl, ?_, ?_, ?_, ?_⟩
  · unfold Impl2.drawMousePosition
    rw [if_pos (Or.inl (by norm_num [Impl2.handleMouseLeaveState]))]
  · unfold Impl1.drawMousePosition
    rw [if_pos (Or.inl (by norm_num [Impl1.handleMouseLeaveState]))]
  · intro fuel cmds h
    intro hmem
    rcases (render2_marker_iff (Impl2.handleMouseLeaveState s) fuel cmds h).mp hmem
      with ⟨hsm, hx, hy⟩
    norm_num [Impl2.handleMouseLeaveState] at hx
  · intro fuel cmds h
    intro hmem
    rcases (render1_marker_iff (Impl1.handleMouseLeaveState s) fuel cmds h).mp hmem
      with ⟨hsm, hx, hy⟩
    norm_num [Impl1.handleMouseLeaveState] at hx

/-- C7 witness: a concrete pointer-leave render contains no cursor
stroke command. -/
theorem c7_pointer_leave_witness :
    (Impl2.handleMouseLeave sLeaveW 4).2 = some c7L ∧
    Cmd.setStrokeStyle "rgba(0, 0, 0, 0.3)" ∉ c7L := by
  have h2 : (Impl2.handleMouseLeave sLeaveW 4).2 = some c7L := by
    norm_num [Impl2.handleMouseLeave, Impl2.handleMouseLeaveState, Impl2.renderRuler,
      Impl2.drawTicks, Impl2.drawMousePosition, sLeaveW, defaultOptions, jsFor,
      Impl2.tickCmds, tickPred, jsModEqZero, jsMod, ratTrunc, List.findIdx?_cons,
      List.findIdx?_nil, tickHeights, c7L]
  exact ⟨h2, (c7_pointer_leave_confirmed sLeaveW).2.2.2.2.2.2.1 4 c7L h2⟩

theorem jsNumToString_den_one (q : ℚ) (h : q.den = 1) :
    jsNumToString q = toString q.num := by
  unfold jsNumToString
  rw [if_pos h]

/-- C8 (amended): with labels on, integral start offset and scale
factor, and a positive major interval, the label layer of the second
copy — and of the first copy for any unit other than `"in"` — consists
of exactly one plain-integer label (no fractional digits, no unit
suffix) per major position, offset 2px past the tick along the ruler
axis and just past the tick's far end on the cross axis; minor and
micro ticks get no label, and `showLabel = false` yields no label at
all.  In the first copy's `"in"` mode, labels are instead
`(i/60).toFixed(0)` with a trailing inch mark and are drawn even when
labels are off. -/
theorem c8_label_amended (o : RulerOrientation) (u : String) (L major minor micro : ℚ)
    (a b : ℤ) (sl : Bool) (fuel : Nat) (hmaj : 0 < major) (hb : 0 < (b : ℚ))
    (hfuel : numIters (a : ℚ) L (b : ℚ) ≤ fuel) (hu : u ≠ "in") :
    (∃ cmds, Impl2.drawTicks o L major minor micro (a : ℚ) sl (b : ℚ) fuel = some cmds ∧
      cmds.filter isFillText = (iterPositions (a : ℚ) L (b : ℚ)).flatMap
        (fun i => if sl = true ∧ evenlyDivides major i = true then claimMajorLabel o i
          else [])) ∧
    (∃ cmds, Impl1.drawTicks u o L major minor micro (a : ℚ) sl (b : ℚ) fuel = some cmds ∧
      cmds.filter isFillText = (iterPositions (a : ℚ) L (b : ℚ)).flatMap
        (fun i => if sl = true ∧ evenlyDivides major i = true then claimMajorLabel o i
          else [])) := by
  have hjs := jsFor_closed (Impl2.tickCmds o major minor micro sl) L (b : ℚ) hb fuel
    (a : ℚ) hfuel
  have hmain : ∃ cmds,
      Impl2.drawTicks o L major minor micro (a : ℚ) sl (b : ℚ) fuel = some cmds ∧
      cmds.filter isFillText = (iterPositions (a : ℚ) L (b : ℚ)).flatMap
        (fun i => if sl = true ∧ evenlyDivides major i = true then claimMajorLabel o i
          else []) := by
    refine ⟨Cmd.beginPath ::
      (((List.range (numIters (a : ℚ) L (b : ℚ))).map
        (fun k : Nat => (a : ℚ) + (k : ℚ) * (b : ℚ))).flatMap
          (Impl2.tickCmds o major minor micro sl)) ++ [Cmd.stroke], ?_, ?_⟩
    · unfold Impl2.drawTicks
      rw [hjs]
      rfl
    · simp [isFillText, filter_flatMap, iterPositions]
      apply flatMap_congr
      intro i hi
      obtain ⟨k, _, hk⟩ := List.mem_map.mp hi
      have hint : i = ((a + (k : ℤ) * b : ℤ) : ℚ) := by
        rw [← hk]
        push_cast
        ring
      have hden : i.den = 1 := by
        rw [hint]
        exact Rat.den_intCast _
      rw [tickCmds_filter_text o major minor micro i sl,
        tickPred_iff i major hmaj, jsNumToString_den_one i hden]
      cases o <;> simp [claimMajorLabel]
  refine ⟨hmain, ?_⟩
  rw [drawTicks1_eq_drawTicks2 u o L major minor micro (a : ℚ) (b : ℚ) sl fuel hu]
  exact hmain

/-- C8 counterexample: the first copy's `"in"` branch emits labels with
an inch-mark suffix at every major-loop position even though
`showLabel` is false — refuting both the "no unit suffix" and the "no
label when labels are off" parts of the claim. -/
theorem c8_label_counterexample :
    (Impl1.drawTicks "in" RulerOrientation.horizontal 61 60 30 10 0 false 60 10).map
      (fun l => l.filter isFillText) =
    some [Cmd.fillText "0\"" 2 25, Cmd.fillText "1\"" 62 25] := by
  have hj0 : jsToFixed0 (0 : ℚ) = 0 := by
    unfold jsToFixed0
    norm_num
  have hj1 : jsToFixed0 (1 : ℚ) = 1 := by
    unfold jsToFixed0
    norm_num
  have h0 : jsToFixed0Str 0 ++ "\"" = "0\"" := by
    unfold jsToFixed0Str
    rw [hj0]
    decide
  have h1 : jsToFixed0Str 1 ++ "\"" = "1\"" := by
    unfold jsToFixed0Str
    rw [hj1]
    decide
  norm_num [Impl1.drawTicks, jsFor, Impl1.inMajorBody, Impl1.inMinorBody,
    Impl1.inMicroBody, jsModEqZero, jsMod, ratTrunc, isFillText, h0, h1]

/-- C8 witness: a pixel-unit configuration (major 5, minor 3, micro 2,
length 12) whose labels are exactly the plain integers at the major
positions. -/
theorem c8_label_witness :
    (∃ cmds, Impl2.drawTicks RulerOrientation.horizontal 12 5 3 2 ((0 : ℤ) : ℚ) true
        ((1 : ℤ) : ℚ) 12 = some cmds ∧
      cmds.filter isFillText =
        (iterPositions ((0 : ℤ) : ℚ) 12 ((1 : ℤ) : ℚ)).flatMap
          (fun i => if true = true ∧ evenlyDivides 5 i = true then
            claimMajorLabel RulerOrientation.horizontal i else [])) ∧
    (∃ cmds, Impl1.drawTicks "px" RulerOrientation.horizontal 12 5 3 2 ((0 : ℤ) : ℚ) true
        ((1 : ℤ) : ℚ) 12 = some cmds ∧
      cmds.filter isFillText =
        (iterPositions ((0 : ℤ) : ℚ) 12 ((1 : ℤ) : ℚ)).flatMap
          (fun i => if true = true ∧ evenlyDivides 5 i = true then
            claimMajorLabel RulerOrientation.horizontal i else [])) :=
  c8_label_amended RulerOrientation.horizontal "px" 12 5 3 2 0 1 true 12
    (by norm_num) (by norm_num) (by norm_num [numIters]) (by decide)

/-- C9: `refresh` is idempotent in both copies — applying the state
update twice with the same container extent and probe measurement gives
the same state as applying it once, and therefore the second refresh
renders exactly the same command sequence (and returns the same final
state) as the first. -/
theorem c9_refresh_idempotent_confirmed (s : RulerState) (ce : Option ℚ) (p : ℚ)
    (fuel : Nat) :
    Impl2.refreshState (Impl2.refreshState s ce p) ce p = Impl2.refreshState s ce p ∧
    Impl2.refresh (Impl2.refreshState s ce p) ce p fuel = Impl2.refresh s ce p fuel ∧
    Impl1.refreshState (Impl1.refreshState s ce) ce = Impl1.refreshState s ce ∧
    Impl1.refresh (Impl1.refreshState s ce) ce fuel = Impl1.refresh s ce fuel := by
  have h2 : Impl2.refreshState (Impl2.refreshState s ce p) ce p =
      Impl2.refreshState s ce p := by
    unfold Impl2.refreshState
    cases ho : s.options.orientation <;> cases ce <;>
      simp [ho] <;> split_ifs <;> simp_all
  have h1 : Impl1.refreshState (Impl1.refreshState s ce) ce =
      Impl1.refreshState s ce := by
    unfold Impl1.refreshState
    cases ho : s.options.orientation <;> cases ce <;>
      simp [ho] <;> split_ifs <;> simp_all
  refine ⟨h2, ?_, h1, ?_⟩
  · unfold Impl2.refresh
    rw [h2]
  · unfold Impl1.refresh
    rw [h1]

/-- C10: every refresh sets the cross-axis dimension to the configured
thickness; the orientation-axis extent becomes the container's reported
extent when the container is present and reports a nonzero extent, and
is otherwise retained unchanged; the configuration is untouched.  The
state update is a total function, so refresh is safe to call any number
of times. -/
theorem c10_refresh_dimensions_confirmed (s : RulerState) (ce : Option ℚ) (p : ℚ) :
    crossDim (Impl2.refreshState s ce p) = s.options.rulerThickness ∧
    extentDim (Impl2.refreshState s ce p) =
      (match ce with
       | some c => if c = 0 then extentDim s else c
       | none => extentDim s) ∧
    (Impl2.refreshState s ce p).options = s.options ∧
    crossDim (Impl1.refreshState s ce) = s.options.rulerThickness ∧
    extentDim (Impl1.refreshState s ce) =
      (match ce with
       | some c => if c = 0 then extentDim s else c
       | none => extentDim s) ∧
    (Impl1.refreshState s ce).options = s.options := by
  cases ho : s.options.orientation <;> cases ce <;>
    refine ⟨?_, ?_, ?_, ?_, ?_, ?_⟩ <;>
      simp [crossDim, extentDim, Impl2.refreshState, Impl1.refreshState, ho]
